import Mathlib

/-!
Verification of the Tower of Madness round/clock synchronization core.

The development shallowly embeds the two source files of the repository:
the Colyseus server entry point (clock-based round computation) and the
Decentraland client game script (per-player attempt state machine, round
timer, and multiplayer callback handlers).  Wall-clock readings
(`Date.now()`, `Math.floor(Date.now() / 1000)`) are passed explicitly as
parameters; JavaScript numbers are modelled as rationals where fractional
seconds occur and as naturals where the code works with floored integers.
-/

namespace TowerOfMadness

/-! ## Server: clock-based round computation (server/src/index.ts) -/

/-- `ROUND_DURATION = 420` — 7 minutes, from the server constants. -/
def ROUND_DURATION : ℕ := 420

/-- `BREAK_DURATION = 10` — 10 seconds, from the server constants. -/
def BREAK_DURATION : ℕ := 10

/-- `TOTAL_CYCLE = ROUND_DURATION + BREAK_DURATION`. -/
def TOTAL_CYCLE : ℕ := ROUND_DURATION + BREAK_DURATION

/-- Result record of the server's `getCurrentRoundInfo`. -/
structure ServerRoundInfo where
  roundNumber : ℕ
  isBreak : Bool
  remainingTime : ℕ
  deriving DecidableEq, Repr

/-- Modelled from the spec: the Clock Oracle contract
`computeRoundInfo(nowEpochSeconds, roundDurationSeconds, breakDurationSeconds)`
of spec §4.1, which parameterizes the durations; the code's
`getCurrentRoundInfo` (server/src/index.ts) instantiates it at the fixed
constants, see `getCurrentRoundInfo_eq_computeRoundInfo`. -/
def computeRoundInfo (now roundDuration breakDuration : ℕ) : ServerRoundInfo :=
  let cycle := roundDuration + breakDuration
  let roundNumber := now / cycle
  let cycleProgress := now % cycle
  let isBreak : Bool := decide (cycleProgress ≥ roundDuration)
  let remainingTime := if cycleProgress ≥ roundDuration then
    cycle - cycleProgress
  else
    roundDuration - cycleProgress
  { roundNumber := roundNumber, isBreak := isBreak, remainingTime := remainingTime }

/-- `getCurrentRoundInfo` from server/src/index.ts, with the wall-clock
reading `now = Math.floor(Date.now() / 1000)` passed as a parameter. -/
def getCurrentRoundInfo (now : ℕ) : ServerRoundInfo :=
  let roundNumber := now / TOTAL_CYCLE
  let cycleProgress := now % TOTAL_CYCLE
  let isBreak : Bool := decide (cycleProgress ≥ ROUND_DURATION)
  let remainingTime := if cycleProgress ≥ ROUND_DURATION then
    TOTAL_CYCLE - cycleProgress
  else
    ROUND_DURATION - cycleProgress
  { roundNumber := roundNumber, isBreak := isBreak, remainingTime := remainingTime }

theorem getCurrentRoundInfo_eq_computeRoundInfo (now : ℕ) :
    getCurrentRoundInfo now = computeRoundInfo now ROUND_DURATION BREAK_DURATION := rfl

/-- C1: for every non-negative epoch time `now` and positive durations, the
round-info computation returns `roundNumber = now / cycle`, reports BREAK
exactly when `now % cycle ≥ roundDuration`, returns
`remainingTime = cycle - cycleProgress` during BREAK and
`roundDuration - cycleProgress` during ACTIVE; at any `now` divisible by the
cycle length it reports ACTIVE with the full round duration remaining, and
with the code's constants `getCurrentRoundInfo 425` yields round 0, BREAK,
5 seconds remaining. -/
theorem computeRoundInfo_spec (now roundDuration breakDuration : ℕ)
    (hrd : 0 < roundDuration) (_hbd : 0 < breakDuration) :
    (computeRoundInfo now roundDuration breakDuration).roundNumber =
      now / (roundDuration + breakDuration) ∧
    ((computeRoundInfo now roundDuration breakDuration).isBreak = true ↔
      now % (roundDuration + breakDuration) ≥ roundDuration) ∧
    ((computeRoundInfo now roundDuration breakDuration).isBreak = true →
      (computeRoundInfo now roundDuration breakDuration).remainingTime =
        (roundDuration + breakDuration) - now % (roundDuration + breakDuration)) ∧
    ((computeRoundInfo now roundDuration breakDuration).isBreak = false →
      (computeRoundInfo now roundDuration breakDuration).remainingTime =
        roundDuration - now % (roundDuration + breakDuration)) ∧
    (now % (roundDuration + breakDuration) = 0 →
      (computeRoundInfo now roundDuration breakDuration).isBreak = false ∧
      (computeRoundInfo now roundDuration breakDuration).remainingTime = roundDuration) ∧
    getCurrentRoundInfo 425 =
      { roundNumber := 0, isBreak := true, remainingTime := 5 } := by
  refine ⟨rfl, ?_, ?_, ?_, ?_, by decide⟩
  · simp [computeRoundInfo]
  · intro h
    simp only [computeRoundInfo, decide_eq_true_eq] at h ⊢
    simp [h]
  · intro h
    simp only [computeRoundInfo, decide_eq_false_iff_not, not_le] at h ⊢
    simp [not_le.mpr h, le_of_lt h]
  · intro h
    constructor
    · simp [computeRoundInfo, h, Nat.not_le.mpr hrd]
    · simp [computeRoundInfo, h, Nat.not_le.mpr hrd]

/-- Witness for C1 at `now = 430`, `roundDuration = 420`, `breakDuration = 10`:
the boundary instant reports ACTIVE with the full duration remaining. -/
theorem computeRoundInfo_spec_witness :
    (computeRoundInfo 430 420 10).roundNumber = 1 ∧
    (computeRoundInfo 430 420 10).isBreak = false ∧
    (computeRoundInfo 430 420 10).remainingTime = 420 ∧
    getCurrentRoundInfo 425 =
      { roundNumber := 0, isBreak := true, remainingTime := 5 } := by
  have h := computeRoundInfo_spec 430 420 10 (by decide) (by decide)
  refine ⟨by decide, ?_, ?_, h.2.2.2.2.2⟩
  · exact (h.2.2.2.2.1 (by decide)).1
  · exact (h.2.2.2.2.1 (by decide)).2

/-! ## Client: game state (client index.ts module-level variables) -/

/-- `AttemptState` enum from the client. -/
inductive AttemptState where
  | NOT_STARTED
  | IN_PROGRESS
  | FINISHED
  | DIED
  deriving DecidableEq, Repr

/-- `RoundState` enum from the client. -/
inductive RoundState where
  | ACTIVE
  | ENDING
  | BREAK
  deriving DecidableEq, Repr

/-- `attemptResult` values `'WIN' | 'DEATH'` from the client. -/
inductive AttemptResult where
  | WIN
  | DEATH
  deriving DecidableEq, Repr

/-- Modelled from the spec: `LeaderboardEntry` is declared in the client's
multiplayer.ts, which is not part of the sources; spec §3 gives
`{playerId, bestHeight, finishTime?}`.  The client code only stores these
entries opaquely. -/
structure LeaderboardEntry where
  playerId : String
  bestHeight : ℚ
  finishTime : Option ℚ
  deriving DecidableEq, Repr

/-- Modelled from the spec: `WinnerEntry` is declared in the client's
multiplayer.ts, which is not part of the sources; spec §3 gives
`{playerId, finishTime}`. -/
structure WinnerEntry where
  playerId : String
  finishTime : ℚ
  deriving DecidableEq, Repr

/-- `RoundInfo` as consumed by the client (`roundNumber`, `isBreak`,
`remainingTime`, `chunkIds`), matching the fields used in `main`. -/
structure RoundInfo where
  roundNumber : ℕ
  isBreak : Bool
  remainingTime : ℚ
  chunkIds : List String
  deriving DecidableEq, Repr

/-- The client's module-level mutable variables, gathered into one state
record.  Times are in milliseconds (`Date.now()`) except `attemptTimer`,
`attemptFinishTime`, `bestAttemptTime`, `roundTimer` which the code keeps in
seconds.  `currentTower` stands for the tower structure handed to the
external `generateTowerFromServer` renderer. -/
structure GameState where
  playerHeight : ℚ
  playerMaxHeight : ℚ
  attemptState : AttemptState
  attemptStartTime : ℚ
  attemptTimer : ℚ
  attemptFinishTime : ℚ
  bestAttemptTime : ℚ
  bestAttemptHeight : ℚ
  attemptResult : Option AttemptResult
  resultMessage : String
  resultTimestamp : ℚ
  roundState : RoundState
  roundTimer : ℚ
  roundSpeedMultiplier : ℚ
  roundStartTime : ℚ
  roundFinishers : ℕ
  leaderboard : List LeaderboardEntry
  roundWinners : List WinnerEntry
  isMultiplayerMode : Bool
  lastHeightUpdateTime : ℚ
  currentTower : List String
  deriving DecidableEq, Repr

/-- `HEIGHT_UPDATE_INTERVAL = 500` ms, from the client constants. -/
def HEIGHT_UPDATE_INTERVAL : ℚ := 500

/-- The client module's initial variable values, with `t0` standing for the
`Date.now()` read by the `roundStartTime` initializer. -/
def initialGameState (t0 : ℚ) : GameState where
  playerHeight := 0
  playerMaxHeight := 0
  attemptState := AttemptState.NOT_STARTED
  attemptStartTime := 0
  attemptTimer := 0
  attemptFinishTime := 0
  bestAttemptTime := 0
  bestAttemptHeight := 0
  attemptResult := none
  resultMessage := ""
  resultTimestamp := 0
  roundState := RoundState.ACTIVE
  roundTimer := 420
  roundSpeedMultiplier := 1
  roundStartTime := t0
  roundFinishers := 0
  leaderboard := []
  roundWinners := []
  isMultiplayerMode := false
  lastHeightUpdateTime := 0
  currentTower := []

/-! ## Client: per-tick and event functions -/

/-- `trackPlayerHeight` system from the client: records the player's current
height `h` (the player transform's `position.y`), and while the attempt is
IN_PROGRESS raises `playerMaxHeight` monotonically, refreshes
`attemptTimer`, and (in multiplayer) throttles height uploads via
`lastHeightUpdateTime`. -/
def trackPlayerHeight (now h : ℚ) (s : GameState) : GameState :=
  let s := { s with playerHeight := h }
  if s.attemptState = AttemptState.IN_PROGRESS then
    let s := if h > s.playerMaxHeight then { s with playerMaxHeight := h } else s
    let s := { s with attemptTimer := (now - s.attemptStartTime) / 1000 }
    if s.isMultiplayerMode ∧ now - s.lastHeightUpdateTime ≥ HEIGHT_UPDATE_INTERVAL then
      { s with lastHeightUpdateTime := now }
    else s
  else s

/-- `startNewRound` from the client (single-player new round): resets the
round and the player attempt; the call to the external `generateTower()`
renderer is outside the embedded state. -/
def startNewRound (now : ℚ) (s : GameState) : GameState :=
  { s with
    roundState := RoundState.ACTIVE
    roundTimer := 420
    roundSpeedMultiplier := 1
    roundStartTime := now
    roundFinishers := 0
    roundWinners := []
    leaderboard := []
    attemptState := AttemptState.NOT_STARTED
    attemptTimer := 0
    playerMaxHeight := 0
    attemptResult := none
    resultMessage := "New round started! Go to TriggerStart to begin your attempt"
    resultTimestamp := now }

/-- `endRound` from the client: moves to ENDING and stamps the result time. -/
def endRound (now : ℚ) (s : GameState) : GameState :=
  { s with
    roundState := RoundState.ENDING
    resultMessage := "Round Complete!"
    resultTimestamp := now }

/-- `updateRoundTimer` system from the client.  ENDING shows results for 3
seconds then moves to BREAK; BREAK starts a new round after 10 seconds in
single-player; while ACTIVE in single-player the countdown is recomputed
from the elapsed time since `roundStartTime` scaled by the current
`roundSpeedMultiplier`, clamped at 0, and `endRound` fires at 0. -/
def updateRoundTimer (now : ℚ) (s : GameState) : GameState :=
  if s.roundState = RoundState.ENDING then
    if (now - s.resultTimestamp) / 1000 ≥ 3 then
      { s with
        roundState := RoundState.BREAK
        resultMessage := "Next round in 10 seconds..."
        resultTimestamp := now }
    else s
  else if s.roundState = RoundState.BREAK then
    if ¬s.isMultiplayerMode ∧ (now - s.resultTimestamp) / 1000 ≥ 10 then
      startNewRound now s
    else s
  else if s.roundState = RoundState.ACTIVE ∧ ¬s.isMultiplayerMode then
    let elapsed := (now - s.roundStartTime) / 1000
    let adjustedElapsed := elapsed * s.roundSpeedMultiplier
    let s := { s with roundTimer := max 0 (420 - adjustedElapsed) }
    if s.roundTimer ≤ 0 then endRound now s else s
  else s

/-- `startAttempt` from the client, called on TriggerStart entry.  Blocked
unless the round is ACTIVE; blocked with an already-finished notification
while FINISHED; otherwise (NOT_STARTED, IN_PROGRESS or DIED) begins an
attempt. -/
def startAttempt (now : ℚ) (s : GameState) : GameState :=
  if s.roundState ≠ RoundState.ACTIVE then s
  else if s.attemptState = AttemptState.FINISHED then
    { s with
      resultMessage := "You already finished! Wait for next round."
      resultTimestamp := now }
  else
    { s with
      attemptState := AttemptState.IN_PROGRESS
      attemptStartTime := now
      attemptTimer := 0
      playerMaxHeight := s.playerHeight
      attemptResult := none
      resultMessage := "GO! Climb to the top!"
      resultTimestamp := now }

/-- `finishAttempt` from the client, called on TriggerEnd entry.  Ignored
unless the attempt is IN_PROGRESS and the round ACTIVE; otherwise captures
the finish time, updates the personal bests, and accelerates the round
(`roundFinishers++; roundSpeedMultiplier = roundFinishers + 1`).  The
`sendPlayerFinished` upload is outside the embedded state. -/
def finishAttempt (now : ℚ) (s : GameState) : GameState :=
  if s.attemptState ≠ AttemptState.IN_PROGRESS then s
  else if s.roundState ≠ RoundState.ACTIVE then s
  else
    let s := { s with
      attemptState := AttemptState.FINISHED
      attemptFinishTime := s.attemptTimer
      attemptResult := some AttemptResult.WIN
      resultMessage := "FINISHED!"
      resultTimestamp := now }
    let s := if s.attemptFinishTime < s.bestAttemptTime ∨ s.bestAttemptTime = 0 then
      { s with bestAttemptTime := s.attemptFinishTime }
    else s
    let s := if s.playerMaxHeight > s.bestAttemptHeight then
      { s with bestAttemptHeight := s.playerMaxHeight }
    else s
    let s := { s with roundFinishers := s.roundFinishers + 1 }
    { s with roundSpeedMultiplier := ((s.roundFinishers : ℚ) + 1) }

/-- `dieAttempt` from the client, called on TriggerDeath entry.  Ignored
unless the attempt is IN_PROGRESS; otherwise marks the attempt DIED and
updates the personal best height.  The `sendPlayerDied` upload is outside
the embedded state. -/
def dieAttempt (now : ℚ) (s : GameState) : GameState :=
  if s.attemptState ≠ AttemptState.IN_PROGRESS then s
  else
    let s := { s with
      attemptState := AttemptState.DIED
      attemptResult := some AttemptResult.DEATH
      resultMessage := "DEATH - Go to TriggerStart to retry!"
      resultTimestamp := now }
    if s.playerMaxHeight > s.bestAttemptHeight then
      { s with bestAttemptHeight := s.playerMaxHeight }
    else s

/-! ## Client: multiplayer callbacks registered in `main` -/

/-- The `setOnServerTowerReady` callback: renders the broadcast tower and
unconditionally resets the attempt for the new round. -/
def onServerTowerReady (now : ℚ) (chunkIds : List String) (s : GameState) : GameState :=
  { s with
    currentTower := chunkIds
    attemptState := AttemptState.NOT_STARTED
    attemptTimer := 0
    playerMaxHeight := 0
    attemptResult := none
    roundState := RoundState.ACTIVE
    resultMessage := "New round! Go to TriggerStart to begin"
    resultTimestamp := now }

/-- The `setOnTimerUpdate` callback: adopts the broadcast timer and speed
multiplier; a non-positive remaining time while ACTIVE moves the round
directly to BREAK. -/
def onTimerUpdate (now remaining speedMult : ℚ) (s : GameState) : GameState :=
  let s := { s with roundTimer := remaining, roundSpeedMultiplier := speedMult }
  if remaining ≤ 0 ∧ s.roundState = RoundState.ACTIVE then
    { s with
      roundState := RoundState.BREAK
      resultMessage := "Round ended! Next round starting soon..."
      resultTimestamp := now }
  else s

/-- The `setOnRoundChanged` callback: only adopts a broadcast BREAK phase. -/
def onRoundChanged (info : RoundInfo) (s : GameState) : GameState :=
  if info.isBreak then { s with roundState := RoundState.BREAK } else s

/-- The `setOnLeaderboardUpdate` callback. -/
def onLeaderboardUpdate (players : List LeaderboardEntry) (s : GameState) : GameState :=
  { s with leaderboard := players }

/-- The `setOnGameEnded` callback: adopts the broadcast winners and moves the
round to ENDING. -/
def onGameEnded (now : ℚ) (winners : List WinnerEntry) (s : GameState) : GameState :=
  { s with
    roundState := RoundState.ENDING
    roundWinners := winners
    resultMessage := "Round Complete!"
    resultTimestamp := now }

/-- The fallback `RoundInfo` built in `main` when `getRoundInfo()` throws,
with `nowSec = Math.floor(Date.now() / 1000)` passed as a parameter:
`roundNumber = floor(now / 430)`, hardcoded ACTIVE phase, full 420-second
timer and the default tower. -/
def fallbackRoundInfo (nowSec : ℕ) : RoundInfo :=
  let roundNumber := nowSec / 430
  { roundNumber := roundNumber
    isBreak := false
    remainingTime := 420
    chunkIds := ["Chunk01", "Chunk02", "Chunk03"] }

/-- The inbound events a running client session reacts to: the five server
broadcasts wired in `main`, the per-frame systems, and the three trigger
zones. -/
inductive ClientEvent where
  | towerReady (chunkIds : List String)
  | timerUpdate (remaining speedMult : ℚ)
  | roundChanged (info : RoundInfo)
  | leaderboardUpdate (entries : List LeaderboardEntry)
  | gameEnded (winners : List WinnerEntry)
  | tick
  | heightSample (h : ℚ)
  | startZone
  | finishZone
  | deathZone
  deriving DecidableEq, Repr

/-- Dispatch of one inbound event to the client handler the code wires it
to (`main`'s callback registrations, the engine systems, and the manual
trigger detection). -/
def step (now : ℚ) (e : ClientEvent) (s : GameState) : GameState :=
  match e with
  | ClientEvent.towerReady chunkIds => onServerTowerReady now chunkIds s
  | ClientEvent.timerUpdate remaining speedMult => onTimerUpdate now remaining speedMult s
  | ClientEvent.roundChanged info => onRoundChanged info s
  | ClientEvent.leaderboardUpdate entries => onLeaderboardUpdate entries s
  | ClientEvent.gameEnded winners => onGameEnded now winners s
  | ClientEvent.tick => updateRoundTimer now s
  | ClientEvent.heightSample h => trackPlayerHeight now h s
  | ClientEvent.startZone => startAttempt now s
  | ClientEvent.finishZone => finishAttempt now s
  | ClientEvent.deathZone => dieAttempt now s

/-! ## Claim theorems -/

/-- C7: entering the Finish zone while the attempt is already FINISHED is a
no-op — `finishAttempt` applied a second time changes no field at all, in
particular neither `attemptFinishTime` nor `roundSpeedMultiplier`. -/
theorem finishAttempt_finished_noop (now : ℚ) (s : GameState)
    (h : s.attemptState = AttemptState.FINISHED) :
    finishAttempt now s = s := by
  unfold finishAttempt
  rw [h]
  simp

/-- Witness for C7: a second Finish-zone entry right after a finished attempt
leaves the state untouched. -/
theorem finishAttempt_finished_noop_witness :
    (finishAttempt 7
        (finishAttempt 5 (startAttempt 2 (initialGameState 0)))) =
      finishAttempt 5 (startAttempt 2 (initialGameState 0)) := by
  apply finishAttempt_finished_noop
  decide

/-- C8: the round-boundary reset — the new-round tower broadcast handler in
multiplayer and the single-player new-round start — unconditionally sets the
attempt state to NOT_STARTED with attempt timer and maxHeight zeroed,
whatever the previous attempt state was. -/
theorem roundReset_unconditional (now : ℚ) (chunkIds : List String) (s : GameState) :
    (onServerTowerReady now chunkIds s).attemptState = AttemptState.NOT_STARTED ∧
    (onServerTowerReady now chunkIds s).attemptTimer = 0 ∧
    (onServerTowerReady now chunkIds s).playerMaxHeight = 0 ∧
    (startNewRound now s).attemptState = AttemptState.NOT_STARTED ∧
    (startNewRound now s).attemptTimer = 0 ∧
    (startNewRound now s).playerMaxHeight = 0 :=
  ⟨rfl, rfl, rfl, rfl, rfl, rfl⟩

/-- C5: for every state and round phase, a Start-zone entry while FINISHED
never moves the attempt back to IN_PROGRESS — the attempt fields are
untouched and (while the round is ACTIVE) only the already-finished
notification is produced — whereas a Start-zone entry while DIED and the
round ACTIVE restarts the attempt: IN_PROGRESS, start time recorded,
maxHeight reset to the current player height. -/
theorem startAttempt_finished_blocked_died_restarts (now : ℚ) (s : GameState) :
    (s.attemptState = AttemptState.FINISHED →
      (startAttempt now s).attemptState = AttemptState.FINISHED ∧
      (startAttempt now s).attemptStartTime = s.attemptStartTime ∧
      (startAttempt now s).attemptTimer = s.attemptTimer ∧
      (startAttempt now s).attemptFinishTime = s.attemptFinishTime ∧
      (startAttempt now s).playerMaxHeight = s.playerMaxHeight ∧
      (s.roundState = RoundState.ACTIVE →
        (startAttempt now s).resultMessage =
          "You already finished! Wait for next round.")) ∧
    (s.attemptState = AttemptState.DIED → s.roundState = RoundState.ACTIVE →
      (startAttempt now s).attemptState = AttemptState.IN_PROGRESS ∧
      (startAttempt now s).attemptStartTime = now ∧
      (startAttempt now s).playerMaxHeight = s.playerHeight) := by
  constructor
  · intro hF
    by_cases hR : s.roundState = RoundState.ACTIVE
    · unfold startAttempt
      rw [hF, hR]
      simp
    · unfold startAttempt
      simp [hR, hF]
  · intro hD hR
    unfold startAttempt
    rw [hD, hR]
    simp

/-- Witness for C5: from a finished attempt a Start-zone entry keeps the
state FINISHED, while from a died attempt during an ACTIVE round it
restarts the attempt. -/
theorem startAttempt_finished_blocked_died_restarts_witness :
    (startAttempt 9 (finishAttempt 5 (startAttempt 2
        (initialGameState 0)))).attemptState = AttemptState.FINISHED ∧
    (startAttempt 9 (dieAttempt 5 (startAttempt 2
        (initialGameState 0)))).attemptState = AttemptState.IN_PROGRESS := by
  constructor
  · exact ((startAttempt_finished_blocked_died_restarts 9
      (finishAttempt 5 (startAttempt 2 (initialGameState 0)))).1 (by decide)).1
  · exact ((startAttempt_finished_blocked_died_restarts 9
      (dieAttempt 5 (startAttempt 2 (initialGameState 0)))).2
      (by decide) (by decide)).1

/-- C4: a player finish during an ACTIVE round increments `roundFinishers`
and then sets `roundSpeedMultiplier = roundFinishers + 1` (so a round that
starts at finisherCount 0 has multiplier 2 after the first finish and 3
after the second), while a player death never changes either
`roundSpeedMultiplier` or `roundFinishers`. -/
theorem finish_speed_die_preserves (now : ℚ) (s : GameState) :
    (s.attemptState = AttemptState.IN_PROGRESS → s.roundState = RoundState.ACTIVE →
      (finishAttempt now s).roundFinishers = s.roundFinishers + 1 ∧
      (finishAttempt now s).roundSpeedMultiplier = (s.roundFinishers : ℚ) + 2) ∧
    (dieAttempt now s).roundSpeedMultiplier = s.roundSpeedMultiplier ∧
    (dieAttempt now s).roundFinishers = s.roundFinishers := by
  refine ⟨?_, ?_, ?_⟩
  · intro hP hR
    unfold finishAttempt
    rw [hP, hR]
    simp only [ne_eq, not_true_eq_false, if_false, reduceCtorEq, not_false_eq_true, if_true]
    constructor
    · split_ifs <;> rfl
    · split_ifs <;> push_cast <;> ring
  · simp only [dieAttempt]
    split_ifs <;> rfl
  · simp only [dieAttempt]
    split_ifs <;> rfl

/-- Witness for C4: in a fresh round (finisherCount 0, multiplier 1) the
first finish yields multiplier 2, a second finisher arriving at
finisherCount 1 yields multiplier 3, and a death changes neither. -/
theorem finish_speed_die_preserves_witness :
    (finishAttempt 5 (startAttempt 2 (initialGameState 0))).roundSpeedMultiplier = 2 ∧
    (finishAttempt 5 { startAttempt 2 (initialGameState 0) with
        roundFinishers := 1 }).roundSpeedMultiplier = 3 ∧
    (dieAttempt 5 (startAttempt 2 (initialGameState 0))).roundSpeedMultiplier = 1 := by
  refine ⟨?_, ?_, ?_⟩
  · have h := ((finish_speed_die_preserves 5
      (startAttempt 2 (initialGameState 0))).1 (by decide) (by decide)).2
    have h0 : (startAttempt 2 (initialGameState 0)).roundFinishers = 0 := by decide
    rw [h, h0]
    norm_num
  · have h := ((finish_speed_die_preserves 5
      { startAttempt 2 (initialGameState 0) with roundFinishers := 1 }).1
      (by decide) (by decide)).2
    have h1 : ({ startAttempt 2 (initialGameState 0) with
        roundFinishers := 1 } : GameState).roundFinishers = 1 := rfl
    rw [h, h1]
    norm_num
  · have h := (finish_speed_die_preserves 5 (startAttempt 2 (initialGameState 0))).2.1
    have h2 : (startAttempt 2 (initialGameState 0)).roundSpeedMultiplier = 1 := by decide
    rw [h, h2]

/-- A sequence of `trackPlayerHeight` ticks, each carrying a wall-clock
reading and a sampled player height. -/
def applyHeightSamples (samples : List (ℚ × ℚ)) (s : GameState) : GameState :=
  samples.foldl (fun s p => trackPlayerHeight p.1 p.2 s) s

theorem trackPlayerHeight_maxHeight_le (now h : ℚ) (s : GameState) :
    s.playerMaxHeight ≤ (trackPlayerHeight now h s).playerMaxHeight := by
  simp only [trackPlayerHeight]
  split_ifs <;> simp <;> linarith

theorem applyHeightSamples_maxHeight_le (samples : List (ℚ × ℚ)) (s : GameState) :
    s.playerMaxHeight ≤ (applyHeightSamples samples s).playerMaxHeight := by
  induction samples generalizing s with
  | nil => exact le_refl _
  | cons p rest ih =>
    exact le_trans (trackPlayerHeight_maxHeight_le p.1 p.2 s)
      (ih (trackPlayerHeight p.1 p.2 s))

/-- C9: while an attempt is IN_PROGRESS each height sample sets
`playerMaxHeight` to the maximum of its previous value and the current
player height, a single tick never lowers it, and across any number of
samples the recorded maximum is non-decreasing. -/
theorem playerMaxHeight_monotone (now h : ℚ) (s : GameState) :
    (s.attemptState = AttemptState.IN_PROGRESS →
      (trackPlayerHeight now h s).playerMaxHeight = max s.playerMaxHeight h) ∧
    s.playerMaxHeight ≤ (trackPlayerHeight now h s).playerMaxHeight ∧
    ∀ samples : List (ℚ × ℚ),
      s.playerMaxHeight ≤ (applyHeightSamples samples s).playerMaxHeight := by
  refine ⟨?_, trackPlayerHeight_maxHeight_le now h s,
    fun samples => applyHeightSamples_maxHeight_le samples s⟩
  intro hP
  simp [trackPlayerHeight, hP]
  split_ifs with h1 h2 h3
  · exact (max_eq_right h1.le).symm
  · exact (max_eq_right h1.le).symm
  · exact (max_eq_left (not_lt.mp h1)).symm
  · exact (max_eq_left (not_lt.mp h1)).symm

/-- Witness for C9: an in-progress attempt at max height 3 sampled at
heights 5 then 4 keeps the recorded maximum at 5, never decreasing. -/
theorem playerMaxHeight_monotone_witness :
    (trackPlayerHeight 1000 5 (startAttempt 2 { initialGameState 0 with
        playerHeight := 3 })).playerMaxHeight =
      max (startAttempt 2 { initialGameState 0 with
        playerHeight := 3 }).playerMaxHeight 5 ∧
    (startAttempt 2 { initialGameState 0 with
        playerHeight := 3 }).playerMaxHeight ≤
      (applyHeightSamples [(1000, 5), (1500, 4)] (startAttempt 2
        { initialGameState 0 with playerHeight := 3 })).playerMaxHeight := by
  constructor
  · exact (playerMaxHeight_monotone 1000 5 (startAttempt 2
      { initialGameState 0 with playerHeight := 3 })).1 (by decide)
  · exact (playerMaxHeight_monotone 1000 5 (startAttempt 2
      { initialGameState 0 with playerHeight := 3 })).2.2 [(1000, 5), (1500, 4)]

theorem trackPlayerHeight_roundState (now h : ℚ) (s : GameState) :
    (trackPlayerHeight now h s).roundState = s.roundState := by
  simp only [trackPlayerHeight]
  split_ifs <;> rfl

theorem startAttempt_roundState (now : ℚ) (s : GameState) :
    (startAttempt now s).roundState = s.roundState := by
  simp only [startAttempt]
  split_ifs <;> rfl

theorem finishAttempt_roundState (now : ℚ) (s : GameState) :
    (finishAttempt now s).roundState = s.roundState := by
  simp only [finishAttempt]
  split_ifs <;> rfl

theorem dieAttempt_roundState (now : ℚ) (s : GameState) :
    (dieAttempt now s).roundState = s.roundState := by
  simp only [dieAttempt]
  split_ifs <;> rfl

theorem updateRoundTimer_mp_roundState (now : ℚ) (s : GameState)
    (hM : s.isMultiplayerMode = true) :
    (updateRoundTimer now s).roundState = s.roundState ∨
      (s.roundState = RoundState.ENDING ∧
        (updateRoundTimer now s).roundState = RoundState.BREAK) := by
  simp only [updateRoundTimer, hM]
  split_ifs with h1 h2 h3 <;> simp_all

/-- C10: in multiplayer mode a TimerUpdate broadcast with
`remainingTime ≤ 0` while the round is locally ACTIVE moves the session
directly to BREAK — never to ENDING — and across every inbound event the
session only ever enters ENDING through a GameEnded broadcast. -/
theorem timerZero_to_break_ending_only_gameEnded (now : ℚ) (e : ClientEvent)
    (s : GameState) (hM : s.isMultiplayerMode = true) :
    (∀ remaining speedMult : ℚ, remaining ≤ 0 → s.roundState = RoundState.ACTIVE →
      (onTimerUpdate now remaining speedMult s).roundState = RoundState.BREAK) ∧
    ((step now e s).roundState = RoundState.ENDING →
      s.roundState = RoundState.ENDING ∨ ∃ w, e = ClientEvent.gameEnded w) := by
  constructor
  · intro remaining speedMult hr hA
    simp [onTimerUpdate, hr, hA]
  · intro hE
    cases e with
    | towerReady chunkIds =>
      exact absurd hE (by simp [step, onServerTowerReady])
    | timerUpdate remaining speedMult =>
      simp only [step, onTimerUpdate] at hE
      split_ifs at hE <;> simp_all
    | roundChanged info =>
      simp only [step, onRoundChanged] at hE
      split_ifs at hE <;> simp_all
    | leaderboardUpdate entries => exact Or.inl hE
    | gameEnded winners => exact Or.inr ⟨winners, rfl⟩
    | tick =>
      rcases updateRoundTimer_mp_roundState now s hM with h | h
      · rw [step] at hE
        rw [h] at hE
        exact Or.inl hE
      · rw [step] at hE
        rw [h.2] at hE
        exact absurd hE (by simp)
    | heightSample h =>
      rw [step, trackPlayerHeight_roundState] at hE
      exact Or.inl hE
    | startZone =>
      rw [step, startAttempt_roundState] at hE
      exact Or.inl hE
    | finishZone =>
      rw [step, finishAttempt_roundState] at hE
      exact Or.inl hE
    | deathZone =>
      rw [step, dieAttempt_roundState] at hE
      exact Or.inl hE

/-- Witness for C10: a multiplayer session in an ACTIVE round receiving a
TimerUpdate with zero remaining time lands in BREAK, and its only way into
ENDING from there is a GameEnded broadcast. -/
theorem timerZero_to_break_ending_only_gameEnded_witness :
    (onTimerUpdate 7 0 1 { initialGameState 0 with
        isMultiplayerMode := true }).roundState = RoundState.BREAK ∧
    ((step 7 (ClientEvent.timerUpdate 0 1) { initialGameState 0 with
        isMultiplayerMode := true }).roundState = RoundState.ENDING →
      ({ initialGameState 0 with
          isMultiplayerMode := true } : GameState).roundState = RoundState.ENDING ∨
        ∃ w, ClientEvent.timerUpdate 0 1 = ClientEvent.gameEnded w) := by
  constructor
  · exact (timerZero_to_break_ending_only_gameEnded 7
      (ClientEvent.timerUpdate 0 1) { initialGameState 0 with
        isMultiplayerMode := true } rfl).1 0 1 le_rfl rfl
  · exact (timerZero_to_break_ending_only_gameEnded 7
      (ClientEvent.timerUpdate 0 1) { initialGameState 0 with
        isMultiplayerMode := true } rfl).2

/-- C3 counterexample: the single-player round timer is not decremented per
tick by (interval × speedMultiplier).  Starting the round at 0 ms, a tick at
100000 ms with multiplier 1 leaves 320 s; after the multiplier changes to 2,
a tick at 101000 ms (one second later) yields 218 s — recomputed as
420 − 101 × 2 — not the 318 s the per-tick decrement would give: the whole
elapsed time is retroactively rescaled by the new multiplier. -/
theorem updateRoundTimer_not_incremental :
    (updateRoundTimer 100000 (initialGameState 0)).roundTimer = 320 ∧
    (updateRoundTimer 101000 { updateRoundTimer 100000 (initialGameState 0) with
        roundSpeedMultiplier := 2 }).roundTimer = 218 ∧
    (updateRoundTimer 101000 { updateRoundTimer 100000 (initialGameState 0) with
        roundSpeedMultiplier := 2 }).roundTimer ≠
      ({ updateRoundTimer 100000 (initialGameState 0) with
          roundSpeedMultiplier := 2 } : GameState).roundTimer -
        ((101000 - 100000) / 1000) * 2 := by
  refine ⟨?_, ?_, ?_⟩ <;>
    · simp [updateRoundTimer, initialGameState, endRound]
      norm_num
      try simp
      try norm_num

/-- C3 amended: while the round is ACTIVE in single-player mode, each tick
recomputes the countdown as
`max 0 (420 − (elapsed since roundStartTime in seconds) × current
speedMultiplier)` — so time elapsed before a speedMultiplier change IS
retroactively rescaled by the new multiplier — and the timer never becomes
negative. -/
theorem updateRoundTimer_recomputes (now : ℚ) (s : GameState)
    (hA : s.roundState = RoundState.ACTIVE) (hM : s.isMultiplayerMode = false) :
    (updateRoundTimer now s).roundTimer =
      max 0 (420 - (now - s.roundStartTime) / 1000 * s.roundSpeedMultiplier) ∧
    0 ≤ (updateRoundTimer now s).roundTimer := by
  have h : (updateRoundTimer now s).roundTimer =
      max 0 (420 - (now - s.roundStartTime) / 1000 * s.roundSpeedMultiplier) := by
    simp only [updateRoundTimer, hA, hM]
    simp only [reduceCtorEq, if_false, Bool.false_eq_true, not_false_eq_true, and_self,
      if_true]
    split_ifs <;> rfl
  exact ⟨h, h ▸ le_max_left 0 _⟩

/-- Witness for C3 amended: with multiplier 2 and the round started at 0 ms,
a tick at 101000 ms leaves `max 0 (420 − 101 × 2) = 218` seconds, which is
non-negative. -/
theorem updateRoundTimer_recomputes_witness :
    (updateRoundTimer 101000 { initialGameState 0 with
        roundSpeedMultiplier := 2 }).roundTimer = 218 ∧
    0 ≤ (updateRoundTimer 101000 { initialGameState 0 with
        roundSpeedMultiplier := 2 }).roundTimer := by
  have h := updateRoundTimer_recomputes 101000
    { initialGameState 0 with roundSpeedMultiplier := 2 } rfl rfl
  refine ⟨?_, h.2⟩
  rw [h.1]
  norm_num [initialGameState]

/-- C2 counterexample: at epoch second 425 the server's clock-oracle
computation reports BREAK with 5 seconds remaining, while the standalone
fallback `RoundInfo` hardcodes phase ACTIVE with 420 seconds — the fallback
session does not compute the same phase and remaining time as a connected
session at that instant. -/
theorem fallbackRoundInfo_differs :
    (getCurrentRoundInfo 425).isBreak = true ∧
    (fallbackRoundInfo 425).isBreak = false ∧
    (getCurrentRoundInfo 425).remainingTime = 5 ∧
    (fallbackRoundInfo 425).remainingTime = 420 :=
  ⟨by decide, rfl, by decide, rfl⟩

/-- C2 amended: a session that starts with the Transport unreachable and
falls into the hardcoded fallback computes the same roundNumber as the
server's clock-oracle computation at the same instant, but its phase is
hardcoded ACTIVE, its remaining time hardcoded 420 seconds, and its tower
the fixed default chunk list — none of which track the connected session's
clock-derived values. -/
theorem fallbackRoundInfo_roundNumber_agrees (now : ℕ) :
    (fallbackRoundInfo now).roundNumber = (getCurrentRoundInfo now).roundNumber ∧
    (fallbackRoundInfo now).isBreak = false ∧
    (fallbackRoundInfo now).remainingTime = 420 ∧
    (fallbackRoundInfo now).chunkIds = ["Chunk01", "Chunk02", "Chunk03"] :=
  ⟨rfl, rfl, rfl, rfl⟩

/-- C6 counterexample: with nothing recorded yet (`bestAttemptHeight = 0`),
an attempt started at player height −1 that ends in death records max
height −1, yet the stored personal best height stays 0 — the first
recorded value is NOT stored unconditionally. -/
theorem personalBest_no_height_init :
    (dieAttempt 3 (startAttempt 2 (trackPlayerHeight 1 (-1)
        (initialGameState 0)))).playerMaxHeight = -1 ∧
    (dieAttempt 3 (startAttempt 2 (trackPlayerHeight 1 (-1)
        (initialGameState 0)))).attemptState = AttemptState.DIED ∧
    (dieAttempt 3 (startAttempt 2 (trackPlayerHeight 1 (-1)
        (initialGameState 0)))).bestAttemptHeight = 0 ∧
    (dieAttempt 3 (startAttempt 2 (trackPlayerHeight 1 (-1)
        (initialGameState 0)))).bestAttemptHeight ≠
      (dieAttempt 3 (startAttempt 2 (trackPlayerHeight 1 (-1)
        (initialGameState 0)))).playerMaxHeight := by
  refine ⟨?_, ?_, ?_, ?_⟩ <;> decide

/-- C6 amended: on finish the personal best time is updated exactly when
the new time is strictly lower or no time is recorded yet (the
`bestAttemptTime = 0` sentinel), and the personal best height — on finish
or death — is updated exactly when the new max height is strictly greater
than the stored value (initialized to 0, with no unconditional first-value
exception); otherwise the stored bests are unchanged, and a death never
touches the best time. -/
theorem personalBest_update_rules (now : ℚ) (s : GameState) :
    (s.attemptState = AttemptState.IN_PROGRESS → s.roundState = RoundState.ACTIVE →
      (finishAttempt now s).bestAttemptTime =
        (if s.attemptTimer < s.bestAttemptTime ∨ s.bestAttemptTime = 0 then
          s.attemptTimer
        else s.bestAttemptTime) ∧
      (finishAttempt now s).bestAttemptHeight =
        (if s.playerMaxHeight > s.bestAttemptHeight then s.playerMaxHeight
        else s.bestAttemptHeight)) ∧
    (s.attemptState = AttemptState.IN_PROGRESS →
      (dieAttempt now s).bestAttemptTime = s.bestAttemptTime ∧
      (dieAttempt now s).bestAttemptHeight =
        (if s.playerMaxHeight > s.bestAttemptHeight then s.playerMaxHeight
        else s.bestAttemptHeight)) := by
  constructor
  · intro hP hR
    simp [finishAttempt, hP, hR]
    split_ifs <;> simp_all
  · intro hP
    simp [dieAttempt, hP]
    split_ifs <;> simp_all

/-- Witness for C6 amended: an in-progress attempt with time 30 against a
stored best of 50 and max height 5 against a stored best of 2 improves both
on finish. -/
theorem personalBest_update_rules_witness :
    (finishAttempt 9 { startAttempt 2 (trackPlayerHeight 1 5
        (initialGameState 0)) with
      attemptTimer := 30, bestAttemptTime := 50,
      bestAttemptHeight := 2 }).bestAttemptTime = 30 ∧
    (finishAttempt 9 { startAttempt 2 (trackPlayerHeight 1 5
        (initialGameState 0)) with
      attemptTimer := 30, bestAttemptTime := 50,
      bestAttemptHeight := 2 }).bestAttemptHeight = 5 := by
  have h := (personalBest_update_rules 9 { startAttempt 2 (trackPlayerHeight 1 5
      (initialGameState 0)) with
    attemptTimer := 30, bestAttemptTime := 50,
    bestAttemptHeight := 2 }).1 (by decide) (by decide)
  refine ⟨?_, ?_⟩
  · rw [h.1]
    decide
  · rw [h.2]
    decide

end TowerOfMadness
